import Mathlib

/-!
Shallow embedding of the lesson-marketplace backend (`src/server.js`).

JavaScript numbers are modelled as exact rationals plus an explicit `NaN`
constructor (`JNum`); floating-point rounding and infinities (which cannot
arrive through `express.json`, since JSON has no such literals) are outside
the model.  JSON request-body values are modelled by `JVal`, with `undef`
standing for an absent field.  MongoDB collections are modelled as Lean
lists of documents; `_id` values are the canonical lowercase 24-hex-digit
strings produced by the driver.
-/

namespace VueBackend

/-- A JavaScript number: `NaN` or an exact rational value. -/
inductive JNum where
  | nan : JNum
  | val (q : ℚ) : JNum
deriving DecidableEq, Repr

/-- A JSON-ish JavaScript value as seen by the request handlers.
`undef` models a field absent from the body (`undefined`). -/
inductive JVal where
  | undef : JVal
  | jnull : JVal
  | jbool (b : Bool) : JVal
  | jnum (n : JNum) : JVal
  | jstr (s : String) : JVal
  | jarr (xs : List JVal) : JVal

/-- JavaScript truthiness, as used by `if (!name || ...)` in the handlers:
`undefined`, `null`, `false`, `NaN`, `0` and `""` are falsy; arrays are
always truthy. -/
def truthy : JVal → Bool
  | .undef => false
  | .jnull => false
  | .jbool b => b
  | .jnum .nan => false
  | .jnum (.val q) => decide (q ≠ 0)
  | .jstr s => !s.data.isEmpty
  | .jarr _ => true

/-- `typeof v === 'number'`. -/
def isNum : JVal → Bool
  | .jnum _ => true
  | _ => false

/-- `v <= 0` for a value that passed the `typeof v === 'number'` check
(short-circuit order in `server.js` guarantees this); comparisons with
`NaN` are false in JavaScript. -/
def jleZero : JVal → Bool
  | .jnum (.val q) => decide (q ≤ 0)
  | _ => false

/-- `Array.isArray` plus extraction of the elements. -/
def asArr : JVal → Option (List JVal)
  | .jarr xs => some xs
  | _ => none

/-- `v === undefined`. -/
def isUndef : JVal → Bool
  | .undef => true
  | _ => false

/-- Truncation toward zero, the behaviour of `parseInt` on a finite
numeric argument (via its decimal string). -/
def ratTrunc (q : ℚ) : ℤ :=
  if 0 ≤ q then ⌊q⌋ else -⌊-q⌋

/-- Value of a run of decimal digits. -/
def digitsToNat (ds : List Char) : ℕ :=
  ds.foldl (fun n c => n * 10 + (c.toNat - 48)) 0

/-- `parseInt` on a string: skip leading whitespace, optional sign, then
the longest run of decimal digits; `NaN` when there is none.  (The rarely
used automatic `0x` hexadecimal prefix of `parseInt` is outside the
model.) -/
def parseIntStr (s : String) : JNum :=
  let cs := s.data.dropWhile (fun c => c.isWhitespace)
  let signAndRest : ℤ × List Char :=
    match cs with
    | '-' :: r => (-1, r)
    | '+' :: r => (1, r)
    | _ => (1, cs)
  let ds := signAndRest.2.takeWhile (fun c => c.isDigit)
  if ds.isEmpty then .nan
  else .val ((signAndRest.1 * (digitsToNat ds : ℤ) : ℤ) : ℚ)

/-- `parseInt(v)` for a request-body value: JavaScript first coerces the
argument to a string.  Numbers are truncated toward zero (the exponential
string notation of magnitudes ≥ 1e21 is outside the model);
`undefined`/`null`/booleans stringify to digit-free words, hence `NaN`;
for an array, `String([v, ...])` is the stringification of its first
element followed by `,` or the end, so parsing reduces to the first
element. -/
def parseIntJS : JVal → JNum
  | .jnum .nan => .nan
  | .jnum (.val q) => .val (ratTrunc q)
  | .jstr s => parseIntStr s
  | .undef => .nan
  | .jnull => .nan
  | .jbool _ => .nan
  | .jarr [] => .nan
  | .jarr (v :: _) => parseIntJS v

/-- JavaScript `+` on numbers: `NaN` propagates. -/
def jadd : JNum → JNum → JNum
  | .val a, .val b => .val (a + b)
  | _, _ => .nan

/-- JavaScript `*` on numbers: `NaN` propagates. -/
def jmul : JNum → JNum → JNum
  | .val a, .val b => .val (a * b)
  | _, _ => .nan

/-- `Math.max(0, x)`: `Math.max` returns `NaN` when an argument is
`NaN`. -/
def jmax0 : JNum → JNum
  | .nan => .nan
  | .val q => .val (max 0 q)

/-- The numeric value of a request field that passed the
`typeof === 'number'` check (other `ToNumber` coercions are never reached
in the embedded handlers). -/
def toNum : JVal → JNum
  | .jnum n => n
  | _ => .nan

/-- Character-wise lowercasing (the behaviour of `toLowerCase` on the
ASCII strings handled here), kept at the character-list level so that it
evaluates by kernel reduction. -/
def lowerStr (s : String) : String :=
  String.mk (s.data.map Char.toLower)

/-- `s.trim()`: strip leading and trailing whitespace, at the
character-list level. -/
def strTrim (s : String) : String :=
  String.mk
    (((s.data.dropWhile Char.isWhitespace).reverse.dropWhile
      Char.isWhitespace).reverse)

/-- `v.trim()`: defined for strings, a thrown `TypeError` (modelled as
`Except.error`) for every other value. -/
def jsTrim : JVal → Except String String
  | .jstr s => .ok (strTrim s)
  | _ => .error "TypeError: trim is not a function"

/-- `v ? v.trim() : null` (used for the optional `email`/`notes`
fields); `none` models `null`. -/
def trimOpt (v : JVal) : Except String (Option String) :=
  if truthy v then (jsTrim v).map some else .ok none

/-- Hexadecimal digit, as accepted by the `ObjectId` constructor. -/
def isHexChar (c : Char) : Bool :=
  c.isDigit || ('a' ≤ c && c ≤ 'f') || ('A' ≤ c && c ≤ 'F')

/-- `new ObjectId(s)` for a string argument: a 24-character hex string
yields the canonical (lowercase) id, anything else throws a
`BSONError`. -/
def toObjectIdStr (s : String) : Except String String :=
  if s.length = 24 && s.data.all isHexChar then .ok (lowerStr s)
  else .error "BSONError: input must be a 24 character hex string"

/-- The id the driver *generates* when `new ObjectId` receives a nullish
or numeric argument (4-byte timestamp plus random bytes).  A fresh id
almost surely differs from every stored `_id`; it is modelled by this
reserved marker, which is not a 24-hex-digit string and therefore matches
no document of a store whose `_id`s are canonical driver ids.  The
handler never compares request ids with each other, so identifying all
generated ids is unobservable on the embedded code paths. -/
def genObjectId : String := "<generated>"

/-- `new ObjectId(v)` for a request-body value: a string must be 24 hex
characters, else a `BSONError` is thrown; `null` (and `undefined`) and
numbers make the constructor generate a fresh id instead of throwing,
modelled by `genObjectId`; booleans and arrays (objects without a
`toHexString`) throw a `BSONError`. -/
def toObjectId : JVal → Except String String
  | .jstr s => toObjectIdStr s
  | .undef => .ok genObjectId
  | .jnull => .ok genObjectId
  | .jnum _ => .ok genObjectId
  | .jbool _ => .error "BSONError: Argument passed in does not match the accepted types"
  | .jarr _ => .error "BSONError: Argument passed in does not match the accepted types"

/-- `lessonIDs.map(id => new ObjectId(id))`: sequential, throwing at the
first invalid element. -/
def mapToObjectIds : List JVal → Except String (List String)
  | [] => .ok []
  | v :: vs =>
    match toObjectId v with
    | .error e => .error e
    | .ok i =>
      match mapToObjectIds vs with
      | .error e => .error e
      | .ok is => .ok (i :: is)

/-- A lesson document, with the fields the embedded handlers read.
`space` is a `JNum` because the space-update endpoint can store `NaN`;
`price` is kept rational per the data-model invariant `price : number`. -/
structure Lesson where
  _id : String
  topic : String
  price : ℚ
  space : JNum
  location : String
deriving DecidableEq, Repr

/-- The denormalized per-lesson snapshot embedded in an order. -/
structure LessonDetail where
  id : String
  topic : String
  price : ℚ
  location : String
deriving DecidableEq, Repr

/-- An order document as built and persisted by `POST /api/orders`.
`orderDate` is an abstract timestamp. -/
structure Order where
  _id : String
  name : String
  phoneNumber : String
  lessonIDs : List String
  numberOfSpaces : JNum
  totalPrice : JNum
  orderDate : ℕ
  status : String
  email : Option String
  notes : Option String
  lessonDetails : List LessonDetail
deriving DecidableEq, Repr

/-- The document store: the two collections of `lessonMarketplace`. -/
structure DB where
  lessons : List Lesson
  orders : List Order
deriving DecidableEq, Repr

/-- The destructured body of a `POST /api/orders` request; a field absent
from the JSON body is `JVal.undef`. -/
structure OrderReq where
  name : JVal
  phoneNumber : JVal
  lessonIDs : JVal
  numberOfSpaces : JVal
  email : JVal
  notes : JVal

/-- A JSON response body from the API handlers. -/
inductive Body where
  | errJson (error : String) : Body
  | orderJson (o : Order) : Body
  | lessonJson (l : Lesson) : Body
  | lessonsJson (ls : List Lesson) : Body
  | nullJson : Body
deriving DecidableEq, Repr

/-- An HTTP response: status code and JSON body. -/
structure HResp where
  status : ℕ
  body : Body
deriving DecidableEq, Repr

/-- `db.collection('lessons').findOne({_id: oid})`: first document with
the given id. -/
def findLesson (ls : List Lesson) (oid : String) : Option Lesson :=
  ls.find? (fun l => l._id = oid)

/-- `updateOne({_id: oid}, {$set: {space: n}})`: overwrite `space` on the
first matching document. -/
def setSpaceFirst : List Lesson → String → JNum → List Lesson
  | [], _, _ => []
  | l :: ls, oid, n =>
    if l._id = oid then { l with space := n } :: ls
    else l :: setSpaceFirst ls oid n

/-- The `POST /api/orders` handler (`src/server.js`, lines 247–313).
`now` abstracts `new Date()` and `fid` the `_id` generated by
`insertOne`; a thrown exception reaches the handler's `catch`, which
responds 500 without touching the store. -/
def createOrder (req : OrderReq) (db : DB) (now : ℕ) (fid : String) :
    HResp × DB :=
  if !truthy req.name || !truthy req.phoneNumber || !truthy req.lessonIDs
      || !truthy req.numberOfSpaces then
    ({ status := 400,
       body := .errJson
         "Missing required fields: name, phoneNumber, lessonIDs, numberOfSpaces" },
     db)
  else
    match asArr req.lessonIDs with
    | none =>
      ({ status := 400,
         body := .errJson "lessonIDs must be a non-empty array (1 or more lesson IDs)" },
       db)
    | some xs =>
      if xs.length = 0 then
        ({ status := 400,
           body := .errJson "lessonIDs must be a non-empty array (1 or more lesson IDs)" },
         db)
      else if !isNum req.numberOfSpaces || jleZero req.numberOfSpaces then
        ({ status := 400,
           body := .errJson "numberOfSpaces must be a positive number" },
         db)
      else
        match mapToObjectIds xs with
        | .error _ => ({ status := 500, body := .errJson "Failed to create order" }, db)
        | .ok ids =>
          let lessons := db.lessons.filter (fun l => decide (l._id ∈ ids))
          if lessons.length ≠ xs.length then
            ({ status := 400, body := .errJson "One or more lesson IDs not found" }, db)
          else
            match jsTrim req.name, jsTrim req.phoneNumber,
                trimOpt req.email, trimOpt req.notes with
            | .ok nm, .ok ph, .ok em, .ok nt =>
              let totalPrice :=
                jmul (.val (lessons.foldl (fun acc l => acc + l.price) 0))
                  (toNum req.numberOfSpaces)
              let newOrder : Order :=
                { _id := fid
                  name := nm
                  phoneNumber := ph
                  lessonIDs := ids
                  numberOfSpaces := parseIntJS req.numberOfSpaces
                  totalPrice := totalPrice
                  orderDate := now
                  status := "pending"
                  email := em
                  notes := nt
                  lessonDetails := lessons.map (fun l =>
                    { id := l._id, topic := l.topic, price := l.price,
                      location := l.location }) }
              ({ status := 201, body := .orderJson newOrder },
               { db with orders := db.orders ++ [newOrder] })
            | _, _, _, _ =>
              ({ status := 500, body := .errJson "Failed to create order" }, db)

/-- The `PUT /api/lessons/:id/space` handler (`src/server.js`, lines
207–233): `idStr` is the raw path parameter, `change` the body field. -/
def updateLessonSpace (idStr : String) (change : JVal) (db : DB) :
    HResp × DB :=
  if isUndef change then
    ({ status := 400, body := .errJson "Change value is required" }, db)
  else
    match toObjectIdStr idStr with
    | .error _ =>
      ({ status := 500, body := .errJson "Failed to update lesson space" }, db)
    | .ok oid =>
      match findLesson db.lessons oid with
      | none => ({ status := 404, body := .errJson "Lesson not found" }, db)
      | some lesson =>
        let newSpace := jmax0 (jadd lesson.space (parseIntJS change))
        let lessons' := setSpaceFirst db.lessons oid newSpace
        let db' : DB := { db with lessons := lessons' }
        match findLesson lessons' oid with
        | some updated => ({ status := 200, body := .lessonJson updated }, db')
        | none => ({ status := 200, body := .nullJson }, db')

/-- One step of the regex matcher: does the pattern match a leading
segment of the text?  Modelled fragment of MongoDB `$regex` with the `i`
option: every pattern character is either a literal or the wildcard `.`
(matching any character; the newline exception of PCRE `.` is outside the
model). -/
def reMatchAt : List Char → List Char → Bool
  | [], _ => true
  | _ :: _, [] => false
  | p :: ps, c :: cs => (p = '.' || p.toLower = c.toLower) && reMatchAt ps cs

/-- Literal (substring-style) counterpart of `reMatchAt`: every pattern
character, `.` included, must match the text character itself,
case-insensitively. -/
def litMatchAt : List Char → List Char → Bool
  | [], _ => true
  | _ :: _, [] => false
  | p :: ps, c :: cs => (p.toLower = c.toLower) && litMatchAt ps cs

/-- Unanchored search: try the matcher at every position of the text. -/
def scanFound (f : List Char → List Char → Bool) (p : List Char) :
    List Char → Bool
  | [] => f p []
  | c :: cs => f p (c :: cs) || scanFound f p cs

/-- Unanchored case-insensitive regex search (the modelled fragment of
`{$regex: pat, $options: 'i'}`). -/
def reFound (pat s : String) : Bool :=
  scanFound reMatchAt pat.data s.data

/-- Case-insensitive plain-substring containment (the spec's reading of
the search filter). -/
def substrCI (pat s : String) : Bool :=
  scanFound litMatchAt pat.data s.data

/-- A character with no special regex meaning in PCRE. -/
def regexPlainChar (c : Char) : Bool :=
  !(['.', '^', '$', '*', '+', '?', '(', ')', '[', ']', '\x7b', '\x7d',
     '\\', '|'].contains c)

/-- The `GET /api/lessons/search/:query` handler (`src/server.js`, lines
330–344): the raw query is passed to `$regex` with the `i` option over
`topic` and `location`.  Read-only. -/
def searchLessons (query : String) (db : DB) : HResp :=
  { status := 200,
    body := .lessonsJson (db.lessons.filter (fun l =>
      reFound query l.topic || reFound query l.location)) }

/-- A served image file's metadata (content bytes are irrelevant to the
properties stated here). -/
structure ImgFile where
  size : ℕ
  mtime : ℕ
deriving DecidableEq, Repr

/-- A successful image response: status, headers. -/
structure ImgOk where
  status : ℕ
  contentType : String
  contentLength : ℕ
  cacheControl : String
  lastModified : ℕ
deriving DecidableEq, Repr

/-- The structured JSON error for a missing image. -/
structure ImgErr where
  status : ℕ
  error : String
  message : String
  requestedPath : String
  suggestions : List String
deriving DecidableEq, Repr

/-- Response of the image middleware. -/
inductive ImgResp where
  | ok (r : ImgOk) : ImgResp
  | notFound (e : ImgErr) : ImgResp
deriving DecidableEq, Repr

/-- Modelled from the spec: `path.extname(fileName).toLowerCase()` as used
by the lessonImageMiddleware documented in `STATIC_FILE_MIDDLEWARE.md`
(the middleware implementation itself is absent from `src/server.js`).
Everything from the last dot on, lowercased; a lone leading dot marks a
hidden file with no extension. -/
def extnameLower (s : String) : String :=
  match s.splitOn "." with
  | [] => ""
  | [_] => ""
  | "" :: [_] => ""
  | parts => lowerStr ("." ++ parts.getLastD "")

/-- Modelled from the spec: the content-type table of the documented
lessonImageMiddleware, defaulting to `application/octet-stream`. -/
def contentTypeFor (fileName : String) : String :=
  let ext := extnameLower fileName
  if ext = ".jpg" then "image/jpeg"
  else if ext = ".jpeg" then "image/jpeg"
  else if ext = ".png" then "image/png"
  else if ext = ".gif" then "image/gif"
  else if ext = ".webp" then "image/webp"
  else if ext = ".svg" then "image/svg+xml"
  else "application/octet-stream"

/-- Character-list version of `String.startsWith`, kept elementary so the
prefix facts below are provable by structural induction. -/
def leadingMatch : List Char → List Char → Bool
  | [], _ => true
  | _ :: _, [] => false
  | p :: ps, c :: cs => p = c && leadingMatch ps cs

/-- The `/images/lessons/` route prefix of the middleware. -/
def imgDir : String := "/images/lessons/"

/-- Modelled from the spec: the lessonImageMiddleware documented in
`STATIC_FILE_MIDDLEWARE.md` and spec §6, whose implementation is absent
from `src/server.js`.  The middleware intercepts paths under
`/images/lessons/`; `none` models `next()` (pass-through).  The file
system is an association list from file name to metadata.  An existing
file is served with status 200, content-type by extension and a 24-hour
cache header; a missing file yields a 404 JSON body carrying the
requested path and suggestions. -/
def lessonImageMiddleware (path : String)
    (files : List (String × ImgFile)) : Option ImgResp :=
  if leadingMatch imgDir.data path.data then
    let fileName := String.mk (path.data.drop imgDir.data.length)
    match files.lookup fileName with
    | some f =>
      some (.ok
        { status := 200
          contentType := contentTypeFor fileName
          contentLength := f.size
          cacheControl := "public, max-age=86400"
          lastModified := f.mtime })
    | none =>
      some (.notFound
        { status := 404
          error := "Image not found"
          message := "The lesson image \x27" ++ fileName ++
            "\x27 could not be found on the server."
          requestedPath := path
          suggestions :=
            ["Check if the image filename is correct",
             "Ensure the image has been uploaded to the server",
             "Verify the image format is supported (jpg, png, gif, webp, svg)"] })
  else
    none

/-! ### Sample data used by witnesses and counterexamples -/

/-- A canonical 24-hex-digit id. -/
def oidA : String := "aaaaaaaaaaaaaaaaaaaaaaaa"

/-- A second canonical id. -/
def oidB : String := "bbbbbbbbbbbbbbbbbbbbbbbb"

/-- A third canonical id, not present in the sample store. -/
def oidC : String := "cccccccccccccccccccccccc"

/-- Sample lesson, price 25. -/
def lessonA : Lesson :=
  { _id := oidA, topic := "Mathematics", price := 25, space := .val 5,
    location := "London" }

/-- Sample lesson, price 35. -/
def lessonB : Lesson :=
  { _id := oidB, topic := "Physics", price := 35, space := .val 5,
    location := "Leeds" }

/-- Sample store with two lessons and no orders. -/
def dbAB : DB := { lessons := [lessonA, lessonB], orders := [] }

/-- A fully valid order request referencing both sample lessons. -/
def reqGood : OrderReq :=
  { name := .jstr "John Smith"
    phoneNumber := .jstr "+44 7700 900123"
    lessonIDs := .jarr [.jstr oidA, .jstr oidB]
    numberOfSpaces := .jnum (.val 2)
    email := .undef
    notes := .undef }

/-! ### Helper lemmas -/

/-- The price fold of the handler is the sum of the prices. -/
theorem foldl_add_price (ls : List Lesson) (a : ℚ) :
    ls.foldl (fun acc l => acc + l.price) a = a + (ls.map (fun l => l.price)).sum := by
  induction ls generalizing a with
  | nil => simp
  | cons h t ih => simp [List.foldl_cons, ih]; ring

/-- `mapToObjectIds` preserves the length of the id list. -/
theorem mapToObjectIds_length {xs : List JVal} {ids : List String}
    (h : mapToObjectIds xs = .ok ids) : ids.length = xs.length := by
  induction xs generalizing ids with
  | nil => simp [mapToObjectIds] at h; simp [← h]
  | cons v vs ih =>
    unfold mapToObjectIds at h
    cases hv : toObjectId v with
    | error e => rw [hv] at h; cases h
    | ok i =>
      rw [hv] at h
      cases hvs : mapToObjectIds vs with
      | error e => rw [hvs] at h; cases h
      | ok is => rw [hvs] at h; cases h; simp [ih hvs]

/-- `mapToObjectIds` sends each successfully converted element to a
member of the resulting id list. -/
theorem mapToObjectIds_mem_ok {xs : List JVal} {ids : List String}
    {v : JVal} {i : String} (hids : mapToObjectIds xs = .ok ids)
    (hv : v ∈ xs) (hok : toObjectId v = .ok i) : i ∈ ids := by
  induction xs generalizing ids with
  | nil => cases hv
  | cons w ws ih =>
    unfold mapToObjectIds at hids
    cases hw : toObjectId w with
    | error e => rw [hw] at hids; cases hids
    | ok j =>
      rw [hw] at hids
      cases hws : mapToObjectIds ws with
      | error e => rw [hws] at hids; cases hids
      | ok js =>
        rw [hws] at hids
        cases hids
        rcases List.mem_cons.1 hv with h | h
        · subst h
          rw [hw] at hok
          cases hok
          exact List.mem_cons_self _ _
        · exact List.mem_cons_of_mem _ (ih hws h)

/-- If some element of the id list is rejected by the `ObjectId`
constructor, the whole `map` throws. -/
theorem mapToObjectIds_error {xs : List JVal} {v : JVal} {e : String}
    (hv : v ∈ xs) (hbad : toObjectId v = .error e) :
    ∃ e2, mapToObjectIds xs = .error e2 := by
  induction xs with
  | nil => cases hv
  | cons w ws ih =>
    rcases List.mem_cons.1 hv with h | h
    · subst h
      exact ⟨e, by unfold mapToObjectIds; rw [hbad]⟩
    · unfold mapToObjectIds
      cases hw : toObjectId w with
      | error e3 => exact ⟨e3, rfl⟩
      | ok i =>
        obtain ⟨e2, he2⟩ := ih h
        exact ⟨e2, by rw [he2]⟩

/-- Resolved lessons have pairwise-distinct ids whenever the store
does. -/
theorem filter_ids_nodup (L : List Lesson) (p : Lesson → Bool)
    (hnd : (L.map Lesson._id).Nodup) :
    ((L.filter p).map Lesson._id).Nodup :=
  ((List.filter_sublist (p := p) L).map Lesson._id).nodup hnd

/-- If a requested id is absent from the store then strictly fewer
lessons resolve than ids were requested. -/
theorem filter_length_lt_of_missing (L : List Lesson) (ids : List String)
    (a : String) (hnd : (L.map Lesson._id).Nodup) (ha : a ∈ ids)
    (hmiss : a ∉ L.map Lesson._id) :
    (L.filter (fun l => decide (l._id ∈ ids))).length < ids.length := by
  have hsub : (L.filter (fun l => decide (l._id ∈ ids))).map Lesson._id ⊆
      ids.dedup.erase a := by
    intro x hx
    obtain ⟨l, hl, hx⟩ := List.mem_map.1 hx
    obtain ⟨hlL, hlid⟩ := List.mem_filter.1 hl
    have hxids : x ∈ ids := by
      subst hx; exact of_decide_eq_true hlid
    have hxa : x ≠ a := by
      intro hcontra
      apply hmiss
      rw [← hcontra]
      subst hx
      exact List.mem_map_of_mem Lesson._id hlL
    exact (List.mem_erase_of_ne hxa).2 (List.mem_dedup.2 hxids)
  have hle : ((L.filter (fun l => decide (l._id ∈ ids))).map Lesson._id).length ≤
      (ids.dedup.erase a).length :=
    (List.subperm_of_subset (filter_ids_nodup L _ hnd) hsub).length_le
  rw [List.length_map] at hle
  have h2 : (ids.dedup.erase a).length = ids.dedup.length - 1 :=
    List.length_erase_of_mem (List.mem_dedup.2 ha)
  have h3 : ids.dedup.length ≤ ids.length := (List.dedup_sublist ids).length_le
  have h4 : 0 < ids.dedup.length :=
    List.length_pos.2 (List.ne_nil_of_mem (List.mem_dedup.2 ha))
  omega

/-- If the requested id list repeats an id then strictly fewer lessons
resolve than ids were requested, no matter how the ids resolve. -/
theorem filter_length_lt_of_dup (L : List Lesson) (ids : List String)
    (hnd : (L.map Lesson._id).Nodup) (hdup : ¬ ids.Nodup) :
    (L.filter (fun l => decide (l._id ∈ ids))).length < ids.length := by
  have hsub : (L.filter (fun l => decide (l._id ∈ ids))).map Lesson._id ⊆
      ids.dedup := by
    intro x hx
    obtain ⟨l, hl, hx⟩ := List.mem_map.1 hx
    obtain ⟨_, hlid⟩ := List.mem_filter.1 hl
    exact List.mem_dedup.2 (by subst hx; exact of_decide_eq_true hlid)
  have hle : ((L.filter (fun l => decide (l._id ∈ ids))).map Lesson._id).length ≤
      ids.dedup.length :=
    (List.subperm_of_subset (filter_ids_nodup L _ hnd) hsub).length_le
  rw [List.length_map] at hle
  have h3 : ids.dedup.length ≤ ids.length := (List.dedup_sublist ids).length_le
  have hne : ids.dedup.length ≠ ids.length := by
    intro hcontra
    exact hdup ((List.dedup_sublist ids).eq_of_length hcontra ▸ ids.nodup_dedup)
  omega

/-- A create-order request that reaches lesson resolution with a
resolved-count mismatch is answered with the 400 not-found error and an
unchanged store. -/
theorem resolution_mismatch_400 (req : OrderReq) (db : DB) (now : ℕ)
    (fid : String) (xs : List JVal) (ids : List String) (s : ℚ)
    (hname : truthy req.name = true)
    (hphone : truthy req.phoneNumber = true)
    (harr : req.lessonIDs = .jarr xs)
    (hne : xs ≠ [])
    (hnum : req.numberOfSpaces = .jnum (.val s))
    (hpos : 0 < s)
    (hids : mapToObjectIds xs = .ok ids)
    (hmismatch :
      (db.lessons.filter (fun l => decide (l._id ∈ ids))).length ≠ xs.length) :
    createOrder req db now fid =
      ({ status := 400, body := .errJson "One or more lesson IDs not found" }, db) := by
  have harrT : truthy req.lessonIDs = true := by rw [harr]; rfl
  have hnumT : truthy req.numberOfSpaces = true := by
    rw [hnum]; simp [truthy]; exact hpos.ne'
  have hisNum : isNum req.numberOfSpaces = true := by rw [hnum]; rfl
  have hle : jleZero req.numberOfSpaces = false := by
    rw [hnum]; simp [jleZero]; exact hpos
  unfold createOrder
  rw [hname, hphone, harrT, hnumT]
  simp only [Bool.not_true, Bool.or_self, Bool.or_false, Bool.false_or,
    Bool.false_eq_true, ite_false]
  rw [harr]
  simp only [asArr]
  rw [if_neg (by simp [hne]), hisNum, hle]
  simp only [Bool.not_true, Bool.or_false, Bool.false_eq_true, ite_false]
  rw [hids]
  dsimp only
  rw [if_pos hmismatch]

/-- Updating the space of the first id-matching lesson updates exactly
the document that `findOne` returns. -/
theorem findLesson_setSpaceFirst (ls : List Lesson) (oid : String) (n : JNum)
    (l : Lesson) (h : findLesson ls oid = some l) :
    findLesson (setSpaceFirst ls oid n) oid = some { l with space := n } := by
  induction ls with
  | nil => cases h
  | cons hd t ih =>
    by_cases hc : hd._id = oid
    · unfold findLesson at h
      rw [List.find?_cons_of_pos _ (by simp [hc])] at h
      cases h
      unfold setSpaceFirst findLesson
      rw [if_pos hc]
      exact List.find?_cons_of_pos _ (by simp [hc])
    · unfold findLesson at h
      rw [List.find?_cons_of_neg _ (by simp [hc])] at h
      unfold setSpaceFirst findLesson
      rw [if_neg hc]
      rw [List.find?_cons_of_neg _ (by simp [hc])]
      exact ih h

/-- `parseInt` is the identity on integers. -/
theorem ratTrunc_intCast (d : ℤ) : ratTrunc (d : ℚ) = d := by
  unfold ratTrunc
  by_cases hd : (0 : ℚ) ≤ (d : ℚ)
  · rw [if_pos hd, Int.floor_intCast]
  · rw [if_neg hd, ← Int.cast_neg, Int.floor_intCast]
    ring

/-- Adding `NaN` yields `NaN`. -/
theorem jadd_nan (x : JNum) : jadd x .nan = .nan := by
  cases x <;> rfl

/-! ### Claim theorems -/

/-- C7: the create-order flow performs at most one write, to the orders
collection, and never writes to the lessons collection: for every
create-order request, successful or failed, every lesson document
(including its `space` field) is unchanged afterwards, and the orders
collection is either unchanged or extended by exactly the one new
order. -/
theorem createOrder_never_writes_lessons (req : OrderReq) (db : DB)
    (now : ℕ) (fid : String) :
    ((createOrder req db now fid).2).lessons = db.lessons ∧
    (((createOrder req db now fid).2).orders = db.orders ∨
      ∃ o : Order, ((createOrder req db now fid).2).orders = db.orders ++ [o]) := by
  unfold createOrder
  repeat' split
  all_goals dsimp only
  all_goals try split_ifs
  all_goals first
  | exact ⟨rfl, Or.inl rfl⟩
  | exact ⟨rfl, Or.inr ⟨_, rfl⟩⟩

/-- C5: a create-order request with any of the four required fields
(`name`, `phoneNumber`, `lessonIDs`, `numberOfSpaces`) absent from the
body is answered with status 400 and the store is left unchanged. -/
theorem missing_field_400_db_unchanged (req : OrderReq) (db : DB)
    (now : ℕ) (fid : String)
    (h : req.name = .undef ∨ req.phoneNumber = .undef ∨
      req.lessonIDs = .undef ∨ req.numberOfSpaces = .undef) :
    (createOrder req db now fid).1.status = 400 ∧
    (createOrder req db now fid).2 = db := by
  have hcond : (!truthy req.name || !truthy req.phoneNumber
      || !truthy req.lessonIDs || !truthy req.numberOfSpaces) = true := by
    rcases h with h | h | h | h <;> rw [h] <;> simp [truthy]
  unfold createOrder
  rw [hcond]
  simp

/-- C1: for every create-order request that passes validation — the four
required fields truthy, `lessonIDs` a non-empty array whose entries all
parse as store ids, `numberOfSpaces` a number `s > 0`, the resolved
lesson count matching the requested count, and the string fields
trimmable — the persisted order's `totalPrice` equals the sum of the
resolved lessons' prices multiplied by `s`. -/
theorem totalPrice_eq_sum_mul_spaces (req : OrderReq) (db : DB) (now : ℕ)
    (fid : String) (xs : List JVal) (ids : List String) (s : ℚ)
    (nm ph : String) (em nt : Option String)
    (hname : truthy req.name = true)
    (hphone : truthy req.phoneNumber = true)
    (harr : req.lessonIDs = .jarr xs)
    (hne : xs ≠ [])
    (hnum : req.numberOfSpaces = .jnum (.val s))
    (hpos : 0 < s)
    (hids : mapToObjectIds xs = .ok ids)
    (hres : (db.lessons.filter (fun l => decide (l._id ∈ ids))).length = xs.length)
    (hnm : jsTrim req.name = .ok nm)
    (hph : jsTrim req.phoneNumber = .ok ph)
    (hem : trimOpt req.email = .ok em)
    (hnt : trimOpt req.notes = .ok nt) :
    ∃ o : Order,
      createOrder req db now fid =
        ({ status := 201, body := .orderJson o },
         { db with orders := db.orders ++ [o] }) ∧
      o.totalPrice =
        .val (((db.lessons.filter (fun l => decide (l._id ∈ ids))).map
          (fun l => l.price)).sum * s) := by
  have harrT : truthy req.lessonIDs = true := by rw [harr]; rfl
  have hnumT : truthy req.numberOfSpaces = true := by
    rw [hnum]; simp [truthy]; exact hpos.ne'
  have hisNum : isNum req.numberOfSpaces = true := by rw [hnum]; rfl
  have hle : jleZero req.numberOfSpaces = false := by
    rw [hnum]; simp [jleZero]; exact hpos
  unfold createOrder
  rw [hname, hphone, harrT, hnumT]
  simp only [Bool.not_true, Bool.or_self, Bool.or_false, Bool.false_or,
    if_false, Bool.false_eq_true, ite_false]
  rw [harr]
  simp only [asArr]
  rw [if_neg (by simp [hne]), hisNum, hle]
  simp only [Bool.not_true, Bool.or_false, Bool.false_eq_true, ite_false]
  rw [hids]
  simp only [hres, ne_eq, not_true_eq_false, ite_false]
  rw [hnm, hph, hem, hnt]
  refine ⟨_, rfl, ?_⟩
  simp only [jmul, hnum, toNum]
  rw [foldl_add_price]
  rw [zero_add]

/-- C2 (amended): a create-order request that reaches lesson resolution
and references at least one well-formed lesson id absent from the store
is answered with status 400 — not 404 — carrying the JSON error
`One or more lesson IDs not found`, and the store is left exactly
unchanged (no partial booking). -/
theorem missing_lesson_400_db_unchanged (req : OrderReq) (db : DB)
    (now : ℕ) (fid : String) (xs : List JVal) (ids : List String) (s : ℚ)
    (a : String)
    (hname : truthy req.name = true)
    (hphone : truthy req.phoneNumber = true)
    (harr : req.lessonIDs = .jarr xs)
    (hne : xs ≠ [])
    (hnum : req.numberOfSpaces = .jnum (.val s))
    (hpos : 0 < s)
    (hids : mapToObjectIds xs = .ok ids)
    (hnd : (db.lessons.map Lesson._id).Nodup)
    (ha : a ∈ ids)
    (hmiss : a ∉ db.lessons.map Lesson._id) :
    createOrder req db now fid =
      ({ status := 400, body := .errJson "One or more lesson IDs not found" }, db) := by
  have hlt := filter_length_lt_of_missing db.lessons ids a hnd ha hmiss
  have hlen : ids.length = xs.length := mapToObjectIds_length hids
  have harrT : truthy req.lessonIDs = true := by rw [harr]; rfl
  have hnumT : truthy req.numberOfSpaces = true := by
    rw [hnum]; simp [truthy]; exact hpos.ne'
  have hisNum : isNum req.numberOfSpaces = true := by rw [hnum]; rfl
  have hle : jleZero req.numberOfSpaces = false := by
    rw [hnum]; simp [jleZero]; exact hpos
  unfold createOrder
  rw [hname, hphone, harrT, hnumT]
  simp only [Bool.not_true, Bool.or_self, Bool.or_false, Bool.false_or,
    Bool.false_eq_true, ite_false]
  rw [harr]
  simp only [asArr]
  rw [if_neg (by simp [hne]), hisNum, hle]
  simp only [Bool.not_true, Bool.or_false, Bool.false_eq_true, ite_false]
  rw [hids]
  dsimp only
  rw [if_pos (by rw [← hlen]; omega)]

/-- C9: a create-order request whose `lessonIDs` list repeats an existing
lesson id is rejected with the `One or more lesson IDs not found` error
(status 400) and nothing is persisted, even though every listed id
resolves to an existing lesson: resolution fetches the set of distinct
matching lessons and compares its size against the length of the
`lessonIDs` list. -/
theorem duplicate_ids_rejected (req : OrderReq) (db : DB)
    (now : ℕ) (fid : String) (xs : List JVal) (ids : List String) (s : ℚ)
    (hname : truthy req.name = true)
    (hphone : truthy req.phoneNumber = true)
    (harr : req.lessonIDs = .jarr xs)
    (hne : xs ≠ [])
    (hnum : req.numberOfSpaces = .jnum (.val s))
    (hpos : 0 < s)
    (hids : mapToObjectIds xs = .ok ids)
    (hnd : (db.lessons.map Lesson._id).Nodup)
    (hdup : ¬ ids.Nodup)
    (hresolve : ∀ i ∈ ids, i ∈ db.lessons.map Lesson._id) :
    createOrder req db now fid =
      ({ status := 400, body := .errJson "One or more lesson IDs not found" }, db) := by
  have hlt := filter_length_lt_of_dup db.lessons ids hnd hdup
  have hlen : ids.length = xs.length := mapToObjectIds_length hids
  have harrT : truthy req.lessonIDs = true := by rw [harr]; rfl
  have hnumT : truthy req.numberOfSpaces = true := by
    rw [hnum]; simp [truthy]; exact hpos.ne'
  have hisNum : isNum req.numberOfSpaces = true := by rw [hnum]; rfl
  have hle : jleZero req.numberOfSpaces = false := by
    rw [hnum]; simp [jleZero]; exact hpos
  unfold createOrder
  rw [hname, hphone, harrT, hnumT]
  simp only [Bool.not_true, Bool.or_self, Bool.or_false, Bool.false_or,
    Bool.false_eq_true, ite_false]
  rw [harr]
  simp only [asArr]
  rw [if_neg (by simp [hne]), hisNum, hle]
  simp only [Bool.not_true, Bool.or_false, Bool.false_eq_true, ite_false]
  rw [hids]
  dsimp only
  rw [if_pos (by rw [← hlen]; omega)]

/-- C4 (amended): a create-order request that passes the presence, array
and positivity checks but contains a lessonID that is not a well-formed
store identifier is never answered with the claimed 400 ValidationError
`invalid id format`, and nothing is persisted.  The actual outcome splits
on the `ObjectId` constructor: a malformed string (or a boolean or array
element) makes it throw a `BSONError`, which the handler's generic catch
answers with the 500 error `Failed to create order`; a `null` or numeric
element instead makes the driver generate a fresh id, which resolves to
no document of a well-formed store, so resolution fails with the 400
error `One or more lesson IDs not found`.  In both cases the store is
left unchanged. -/
theorem invalid_id_500_or_generated_400 :
    (∀ (req : OrderReq) (db : DB) (now : ℕ) (fid : String) (xs : List JVal)
        (s : ℚ) (v : JVal) (e : String),
      truthy req.name = true →
      truthy req.phoneNumber = true →
      req.lessonIDs = .jarr xs →
      xs ≠ [] →
      req.numberOfSpaces = .jnum (.val s) →
      0 < s →
      v ∈ xs →
      toObjectId v = .error e →
      createOrder req db now fid =
        ({ status := 500, body := .errJson "Failed to create order" }, db)) ∧
    (∀ (req : OrderReq) (db : DB) (now : ℕ) (fid : String) (xs : List JVal)
        (ids : List String) (s : ℚ) (v : JVal),
      truthy req.name = true →
      truthy req.phoneNumber = true →
      req.lessonIDs = .jarr xs →
      xs ≠ [] →
      req.numberOfSpaces = .jnum (.val s) →
      0 < s →
      mapToObjectIds xs = .ok ids →
      v ∈ xs →
      (v = .jnull ∨ ∃ n, v = .jnum n) →
      (db.lessons.map Lesson._id).Nodup →
      (∀ i ∈ db.lessons.map Lesson._id, i.length = 24) →
      createOrder req db now fid =
        ({ status := 400, body := .errJson "One or more lesson IDs not found" }, db)) := by
  constructor
  · intro req db now fid xs s v e hname hphone harr hne hnum hpos hv hbad
    obtain ⟨e2, he2⟩ := mapToObjectIds_error hv hbad
    have harrT : truthy req.lessonIDs = true := by rw [harr]; rfl
    have hnumT : truthy req.numberOfSpaces = true := by
      rw [hnum]; simp [truthy]; exact hpos.ne'
    have hisNum : isNum req.numberOfSpaces = true := by rw [hnum]; rfl
    have hle : jleZero req.numberOfSpaces = false := by
      rw [hnum]; simp [jleZero]; exact hpos
    unfold createOrder
    rw [hname, hphone, harrT, hnumT]
    simp only [Bool.not_true, Bool.or_self, Bool.or_false, Bool.false_or,
      Bool.false_eq_true, ite_false]
    rw [harr]
    simp only [asArr]
    rw [if_neg (by simp [hne]), hisNum, hle]
    simp only [Bool.not_true, Bool.or_false, Bool.false_eq_true, ite_false]
    rw [he2]
  · intro req db now fid xs ids s v hname hphone harr hne hnum hpos hids hv
      hgenv hnd hstore
    have hok : toObjectId v = .ok genObjectId := by
      rcases hgenv with h | ⟨n, h⟩ <;> subst h <;> rfl
    have ha : genObjectId ∈ ids := mapToObjectIds_mem_ok hids hv hok
    have hmiss : genObjectId ∉ db.lessons.map Lesson._id := by
      intro hmem
      exact absurd (hstore _ hmem) (by decide)
    have hlt := filter_length_lt_of_missing db.lessons ids genObjectId hnd ha hmiss
    have hlen : ids.length = xs.length := mapToObjectIds_length hids
    exact resolution_mismatch_400 req db now fid xs ids s hname hphone harr
      hne hnum hpos hids (by omega)

/-- C6: the seat-adjustment endpoint, called with a well-formed lesson id
and an integer delta `d`, sets the lesson's `space` to
`max 0 (space + d)` — never below zero regardless of the magnitude of
`d` — and answers 404 `Lesson not found` (store unchanged) when the id
resolves to no lesson. -/
theorem space_adjust_clamped_and_404 :
    (∀ (idStr : String) (db : DB) (oid : String) (lesson : Lesson)
        (s : ℚ) (d : ℤ),
      toObjectIdStr idStr = .ok oid →
      findLesson db.lessons oid = some lesson →
      lesson.space = .val s →
      updateLessonSpace idStr (.jnum (.val (d : ℚ))) db =
        ({ status := 200,
           body := .lessonJson { lesson with space := .val (max 0 (s + (d : ℚ))) } },
         { db with lessons :=
            setSpaceFirst db.lessons oid (.val (max 0 (s + (d : ℚ)))) }) ∧
      (0 : ℚ) ≤ max 0 (s + (d : ℚ))) ∧
    (∀ (idStr : String) (db : DB) (oid : String) (change : JVal),
      isUndef change = false →
      toObjectIdStr idStr = .ok oid →
      findLesson db.lessons oid = none →
      updateLessonSpace idStr change db =
        ({ status := 404, body := .errJson "Lesson not found" }, db)) := by
  constructor
  · intro idStr db oid lesson s d hoid hfind hspace
    have hnew : jmax0 (jadd lesson.space (parseIntJS (.jnum (.val (d : ℚ))))) =
        .val (max 0 (s + (d : ℚ))) := by
      rw [hspace]
      simp only [parseIntJS, ratTrunc_intCast, jadd, jmax0]
    constructor
    · unfold updateLessonSpace
      rw [hoid]
      dsimp only [isUndef]
      rw [hfind]
      dsimp only
      rw [hnew, findLesson_setSpaceFirst db.lessons oid _ lesson hfind]
      rfl
    · exact le_max_left 0 _
  · intro idStr db oid change hch hoid hfind
    unfold updateLessonSpace
    rw [hch, hoid]
    dsimp only
    rw [hfind]
    rfl

/-- C10: a seat-adjustment request whose `change` value does not parse to
a number is not rejected by any validation: the handler still answers
200 and overwrites the stored `space` of the addressed lesson with `NaN`
(`Math.max(0, space + NaN)` is `NaN`), so the non-negative-integer
invariant on `space` is preserved only under the precondition that
`change` parses. -/
theorem nan_change_writes_nan_space (idStr : String) (db : DB)
    (oid : String) (change : JVal) (lesson : Lesson)
    (hch : isUndef change = false)
    (hnan : parseIntJS change = .nan)
    (hoid : toObjectIdStr idStr = .ok oid)
    (hfind : findLesson db.lessons oid = some lesson) :
    (updateLessonSpace idStr change db).1.status = 200 ∧
    findLesson ((updateLessonSpace idStr change db).2).lessons oid =
      some { lesson with space := .nan } := by
  have hnew : jmax0 (jadd lesson.space (parseIntJS change)) = .nan := by
    rw [hnan, jadd_nan]
    rfl
  have hrun : updateLessonSpace idStr change db =
      ({ status := 200, body := .lessonJson { lesson with space := .nan } },
       { db with lessons := setSpaceFirst db.lessons oid .nan }) := by
    unfold updateLessonSpace
    rw [hch, hoid]
    dsimp only
    rw [hfind]
    dsimp only
    rw [hnew, findLesson_setSpaceFirst db.lessons oid _ lesson hfind]
    rfl
  rw [hrun]
  exact ⟨rfl, findLesson_setSpaceFirst db.lessons oid _ lesson hfind⟩

/-- On patterns free of regex metacharacters the regex matcher is the
literal matcher. -/
theorem reMatchAt_eq_litMatchAt (p : List Char)
    (hp : p.all regexPlainChar = true) :
    ∀ s, reMatchAt p s = litMatchAt p s := by
  induction p with
  | nil => intro s; rfl
  | cons c cs ih =>
    intro s
    rw [List.all_cons, Bool.and_eq_true] at hp
    have hdot : ¬(c = '.') := by
      intro hcontra
      subst hcontra
      exact absurd hp.1 (by decide)
    cases s with
    | nil => rfl
    | cons d ds =>
      simp only [reMatchAt, litMatchAt, ih hp.2, decide_eq_false hdot,
        Bool.false_or]

/-- On patterns free of regex metacharacters the unanchored regex search
is case-insensitive substring containment. -/
theorem reFound_eq_substrCI (q s : String)
    (hq : q.data.all regexPlainChar = true) :
    reFound q s = substrCI q s := by
  unfold reFound substrCI
  generalize s.data = t
  induction t with
  | nil => exact reMatchAt_eq_litMatchAt q.data hq []
  | cons c cs ih =>
    simp only [scanFound, ih, reMatchAt_eq_litMatchAt q.data hq]

/-- C8 (amended): lesson search interprets the raw query as a
case-insensitive regular expression over `topic` and `location`.  For
every query free of regex metacharacters this coincides with plain
case-insensitive substring filtering; for queries containing
metacharacters (see the counterexample) the plain-substring reading
fails. -/
theorem search_eq_substring_filter_on_plain_queries (q : String) (db : DB)
    (hq : q.data.all regexPlainChar = true) :
    searchLessons q db =
      { status := 200,
        body := .lessonsJson (db.lessons.filter (fun l =>
          substrCI q l.topic || substrCI q l.location)) } := by
  unfold searchLessons
  have : (fun l : Lesson => reFound q l.topic || reFound q l.location) =
      (fun l : Lesson => substrCI q l.topic || substrCI q l.location) := by
    funext l
    rw [reFound_eq_substrCI q l.topic hq, reFound_eq_substrCI q l.location hq]
  rw [this]

/-- Lesson used to refute the plain-substring reading of search. -/
def lessonSearch : Lesson :=
  { _id := oidA, topic := "abc", price := 10, space := .val 1, location := "X" }

/-- Store used to refute the plain-substring reading of search. -/
def dbSearch : DB := { lessons := [lessonSearch], orders := [] }

/-- C8 (counterexample): for the query `a.c` — whose `.` is a regex
wildcard — the handler returns the lesson with topic `abc`, although
`a.c` is not a substring of `abc` or `X`: search is not plain substring
matching for every query string. -/
theorem search_not_plain_substring :
    searchLessons "a.c" dbSearch ≠
      { status := 200,
        body := .lessonsJson (dbSearch.lessons.filter (fun l =>
          substrCI "a.c" l.topic || substrCI "a.c" l.location)) } ∧
    (searchLessons "a.c" dbSearch).body = .lessonsJson dbSearch.lessons ∧
    substrCI "a.c" "abc" = false := by
  refine ⟨by decide, by decide, by decide⟩

/-- A list always leads any extension of itself. -/
theorem leadingMatch_append (p r : List Char) :
    leadingMatch p (p ++ r) = true := by
  induction p with
  | nil => rfl
  | cons c cs ih => simp [leadingMatch, ih]

/-- C3: the image middleware serves every existing file under
`/images/lessons/` with status 200, a content-type matching the file's
extension and the 24-hour cache header, and answers every missing file
with a 404 JSON body carrying the requested path and non-empty
suggestions. -/
theorem image_middleware_200_and_404 :
    (∀ (files : List (String × ImgFile)) (fname : String) (f : ImgFile),
      files.lookup fname = some f →
      lessonImageMiddleware (imgDir ++ fname) files =
        some (.ok
          { status := 200
            contentType := contentTypeFor fname
            contentLength := f.size
            cacheControl := "public, max-age=86400"
            lastModified := f.mtime })) ∧
    (∀ (files : List (String × ImgFile)) (fname : String),
      files.lookup fname = none →
      ∃ e : ImgErr,
        lessonImageMiddleware (imgDir ++ fname) files = some (.notFound e) ∧
        e.status = 404 ∧ e.requestedPath = imgDir ++ fname ∧
        e.suggestions ≠ []) := by
  have hdata : ∀ fname : String, (imgDir ++ fname).data = imgDir.data ++ fname.data :=
    fun _ => rfl
  have hdrop : ∀ fname : String,
      String.mk ((imgDir.data ++ fname.data).drop imgDir.data.length) = fname := by
    intro fname
    rw [List.drop_left]
  constructor
  · intro files fname f hf
    unfold lessonImageMiddleware
    rw [hdata, leadingMatch_append]
    dsimp only
    rw [hdrop fname, hf]
    rfl
  · intro files fname hf
    have hrun : lessonImageMiddleware (imgDir ++ fname) files =
        some (.notFound
          { status := 404
            error := "Image not found"
            message := "The lesson image \x27" ++ fname ++
              "\x27 could not be found on the server."
            requestedPath := imgDir ++ fname
            suggestions :=
              ["Check if the image filename is correct",
               "Ensure the image has been uploaded to the server",
               "Verify the image format is supported (jpg, png, gif, webp, svg)"] }) := by
      unfold lessonImageMiddleware
      rw [hdata, leadingMatch_append]
      dsimp only
      rw [hdrop fname, hf]
      rfl
    exact ⟨_, hrun, rfl, rfl, by simp⟩

/-! ### Counterexamples and witnesses at concrete inputs -/

/-- Order request referencing one existing and one absent lesson id. -/
def reqMissingLesson : OrderReq :=
  { reqGood with lessonIDs := .jarr [.jstr oidA, .jstr oidC] }

/-- Order request with a malformed lesson id. -/
def reqBadId : OrderReq :=
  { reqGood with lessonIDs := .jarr [.jstr "notanid"] }

/-- Order request whose lessonIDs contain a JSON `null`. -/
def reqNullId : OrderReq :=
  { reqGood with lessonIDs := .jarr [.jnull] }

/-- Order request with the `name` field absent. -/
def reqNoName : OrderReq := { reqGood with name := .undef }

/-- Order request listing the same existing lesson id twice. -/
def reqDup : OrderReq :=
  { reqGood with lessonIDs := .jarr [.jstr oidA, .jstr oidA] }

/-- C2 (counterexample): for a request referencing the absent id `oidC`
the handler answers status 400 — not the claimed 404 — with the
`One or more lesson IDs not found` body, and the store is unchanged. -/
theorem missing_lesson_status_400_not_404 :
    (createOrder reqMissingLesson dbAB 0 "x").1.status = 400 ∧
    (createOrder reqMissingLesson dbAB 0 "x").1.status ≠ 404 ∧
    (createOrder reqMissingLesson dbAB 0 "x").1.body =
      .errJson "One or more lesson IDs not found" ∧
    (createOrder reqMissingLesson dbAB 0 "x").2 = dbAB := by
  refine ⟨by decide, by decide, by decide, by decide⟩

/-- C4 (counterexample): for a request whose lessonIDs contain the
malformed id `notanid` the handler answers status 500 with the generic
`Failed to create order` body — not the claimed 400 ValidationError —
and the store is unchanged. -/
theorem invalid_id_status_500_not_400 :
    (createOrder reqBadId dbAB 0 "x").1.status = 500 ∧
    (createOrder reqBadId dbAB 0 "x").1.status ≠ 400 ∧
    (createOrder reqBadId dbAB 0 "x").1.body = .errJson "Failed to create order" ∧
    (createOrder reqBadId dbAB 0 "x").2 = dbAB := by
  refine ⟨by decide, by decide, by decide, by decide⟩

/-- C1 (witness): the valid sample request for 2 spaces over the £25 and
£35 lessons is persisted with `totalPrice = (25 + 35) × 2`. -/
theorem totalPrice_witness :
    ∃ o : Order,
      createOrder reqGood dbAB 0 "ffffffffffffffffffffffff" =
        ({ status := 201, body := .orderJson o },
         { dbAB with orders := dbAB.orders ++ [o] }) ∧
      o.totalPrice =
        .val (((dbAB.lessons.filter (fun l => decide (l._id ∈ [oidA, oidB]))).map
          (fun l => l.price)).sum * 2) :=
  totalPrice_eq_sum_mul_spaces reqGood dbAB 0 "ffffffffffffffffffffffff"
    [.jstr oidA, .jstr oidB] [oidA, oidB] 2 "John Smith" "+44 7700 900123"
    none none (by decide) (by decide) rfl (List.cons_ne_nil _ _) rfl
    (by norm_num) rfl (by decide) rfl rfl rfl rfl

/-- C2 (witness of the amended claim), at the concrete absent id. -/
theorem missing_lesson_witness :
    createOrder reqMissingLesson dbAB 0 "x" =
      ({ status := 400, body := .errJson "One or more lesson IDs not found" },
       dbAB) :=
  missing_lesson_400_db_unchanged reqMissingLesson dbAB 0 "x"
    [.jstr oidA, .jstr oidC] [oidA, oidC] 2 oidC (by decide) (by decide) rfl
    (List.cons_ne_nil _ _) rfl (by norm_num) rfl (by decide) (by decide)
    (by decide)

/-- C4 (witness of the amended claim): the malformed string id `notanid`
is answered 500, and the JSON-`null` lessonID — for which the driver
generates a fresh id — is answered with the 400 resolution error; the
store is unchanged in both cases. -/
theorem invalid_id_witness :
    createOrder reqBadId dbAB 0 "x" =
      ({ status := 500, body := .errJson "Failed to create order" }, dbAB) ∧
    createOrder reqNullId dbAB 0 "x" =
      ({ status := 400, body := .errJson "One or more lesson IDs not found" },
       dbAB) :=
  ⟨invalid_id_500_or_generated_400.1 reqBadId dbAB 0 "x" [.jstr "notanid"] 2
      (.jstr "notanid") "BSONError: input must be a 24 character hex string"
      (by decide) (by decide) rfl (List.cons_ne_nil _ _) rfl (by norm_num)
      (List.mem_cons_self _ _) rfl,
   invalid_id_500_or_generated_400.2 reqNullId dbAB 0 "x" [.jnull]
      [genObjectId] 2 .jnull (by decide) (by decide) rfl
      (List.cons_ne_nil _ _) rfl (by norm_num) rfl (List.mem_cons_self _ _)
      (Or.inl rfl) (by decide) (by decide)⟩

/-- C5 (witness): the request with no `name` is answered 400 and the
store is unchanged. -/
theorem missing_field_witness :
    (createOrder reqNoName dbAB 0 "x").1.status = 400 ∧
    (createOrder reqNoName dbAB 0 "x").2 = dbAB :=
  missing_field_400_db_unchanged reqNoName dbAB 0 "x" (Or.inl rfl)

/-- C6 (witness): delta −100 on a lesson with 5 spaces clamps to 0, and
an absent id is answered 404. -/
theorem space_adjust_witness :
    (updateLessonSpace oidA (.jnum (.val ((-100 : ℤ) : ℚ))) dbAB =
      ({ status := 200,
         body := .lessonJson
           { lessonA with space := .val (max 0 (5 + ((-100 : ℤ) : ℚ))) } },
       { dbAB with lessons :=
          setSpaceFirst dbAB.lessons oidA (.val (max 0 (5 + ((-100 : ℤ) : ℚ)))) }) ∧
      (0 : ℚ) ≤ max 0 (5 + ((-100 : ℤ) : ℚ))) ∧
    updateLessonSpace oidC (.jnum (.val 1)) dbAB =
      ({ status := 404, body := .errJson "Lesson not found" }, dbAB) :=
  ⟨space_adjust_clamped_and_404.1 oidA dbAB oidA lessonA 5 (-100) rfl rfl rfl,
   space_adjust_clamped_and_404.2 oidC dbAB oidC (.jnum (.val 1)) rfl rfl rfl⟩

/-- C8 (witness of the amended claim): for the metacharacter-free query
`b`, search is case-insensitive substring filtering. -/
theorem search_plain_witness :
    searchLessons "b" dbSearch =
      { status := 200,
        body := .lessonsJson (dbSearch.lessons.filter (fun l =>
          substrCI "b" l.topic || substrCI "b" l.location)) } :=
  search_eq_substring_filter_on_plain_queries "b" dbSearch (by decide)

/-- C9 (witness): listing the existing lesson `oidA` twice is rejected
with the not-found error and nothing persists. -/
theorem duplicate_ids_witness :
    createOrder reqDup dbAB 0 "x" =
      ({ status := 400, body := .errJson "One or more lesson IDs not found" },
       dbAB) :=
  duplicate_ids_rejected reqDup dbAB 0 "x" [.jstr oidA, .jstr oidA]
    [oidA, oidA] 2 (by decide) (by decide) rfl (List.cons_ne_nil _ _) rfl
    (by norm_num) rfl (by decide) (by decide) (by decide)

/-- C10 (witness): `change = "abc"` is accepted with status 200 and the
stored space of the addressed lesson becomes `NaN`. -/
theorem nan_change_witness :
    (updateLessonSpace oidA (.jstr "abc") dbAB).1.status = 200 ∧
    findLesson ((updateLessonSpace oidA (.jstr "abc") dbAB).2).lessons oidA =
      some { lessonA with space := .nan } :=
  nan_change_writes_nan_space oidA dbAB oidA (.jstr "abc") lessonA rfl rfl
    rfl rfl

/-- Sample image directory contents for the C3 witness. -/
def files0 : List (String × ImgFile) :=
  [("mathematics.svg", { size := 1247, mtime := 7 })]

/-- C3 (witness): the existing `mathematics.svg` is served with 200,
`image/svg+xml` and the 24-hour cache header; the missing `missing.jpg`
yields a 404 with the requested path and suggestions. -/
theorem image_middleware_witness :
    lessonImageMiddleware (imgDir ++ "mathematics.svg") files0 =
      some (.ok
        { status := 200, contentType := contentTypeFor "mathematics.svg",
          contentLength := 1247, cacheControl := "public, max-age=86400",
          lastModified := 7 }) ∧
    ∃ e : ImgErr,
      lessonImageMiddleware (imgDir ++ "missing.jpg") files0 =
        some (.notFound e) ∧
      e.status = 404 ∧ e.requestedPath = imgDir ++ "missing.jpg" ∧
      e.suggestions ≠ [] :=
  ⟨image_middleware_200_and_404.1 files0 "mathematics.svg" _ rfl,
   image_middleware_200_and_404.2 files0 "missing.jpg" rfl⟩

end VueBackend
